import Mathlib

/-!
Shallow embedding of the `articles` app (models.py, forms.py, views.py) of
the newspaper repository: articles with view counters and derived display
fields, plus a nested comment system with depth limiting, edit tracking and
soft deletion.  Definitions are translated from the Python source; theorems
check the specification's claims against them.
-/

namespace Newspaper

/-- Helper for `pySplit`: scan the characters, accumulating the current
word (in reverse); whitespace ends the word, runs of whitespace produce no
empty words. -/
def splitWordsAux : List Char → List Char → List String
  | [], acc => if acc.isEmpty then [] else [String.mk acc.reverse]
  | c :: cs, acc =>
    if c.isWhitespace then
      if acc.isEmpty then splitWordsAux cs []
      else String.mk acc.reverse :: splitWordsAux cs []
    else splitWordsAux cs (c :: acc)

/-- Python's `str.split()` with no arguments: split on whitespace runs,
discarding empty fragments. -/
def pySplit (s : String) : List String :=
  splitWordsAux s.data []

/-- `len(body.split())` — the word count used by `reading_time` and
`excerpt` in models.py. -/
def wordCount (s : String) : Nat :=
  (pySplit s).length

/-- Python's `round(word_count / 200)`: nearest integer, ties to even
(banker's rounding).  `word_count / 200` is modelled exactly as the
rational `wc / 200`. -/
def pyRoundDiv200 (wc : Nat) : Nat :=
  let q := wc / 200
  let r := wc % 200
  if r < 100 then q
  else if r > 100 then q + 1
  else if q % 2 = 0 then q else q + 1

/-- The user model: the fields of `django.contrib.auth` users that the
`articles` app reads (`is_authenticated`, `is_staff`, identity). -/
structure User where
  id : Nat
  is_staff : Bool
  is_authenticated : Bool
deriving DecidableEq, Repr

/-- The `Article` row: the columns of models.Article that the verified
operations read or write (image and timestamps are never consulted by
them). `author` stores the user id of the non-nullable author foreign
key. -/
structure Article where
  pk : Nat
  title : String
  body : String
  author : Nat
  is_published : Bool
  meta_description : String
  views_count : Nat
deriving DecidableEq, Repr

/-- `Article.reading_time` (models.py): word count of the body divided by
200, rounded, floored at 1, rendered in Spanish. -/
def reading_time (a : Article) : String :=
  let word_count := wordCount a.body
  let t := max 1 (pyRoundDiv200 word_count)
  toString t ++ " min de lectura"

/-- `Article.excerpt` (models.py): the meta description when truthy
(non-empty), else the first 30 words of the body, with "..." appended
when the body has more than 30 words. -/
def excerpt (a : Article) : String :=
  if a.meta_description ≠ "" then a.meta_description
  else
    let words := (pySplit a.body).take 30
    String.intercalate " " words ++
      (if wordCount a.body > 30 then "..." else "")

/-- `Article.increment_views` (models.py): bump the counter and save with
`update_fields=['views_count']`.  Returns the updated in-memory object and
the list of fields the save persists. -/
def increment_views (a : Article) : Article × List String :=
  ({ a with views_count := a.views_count + 1 }, ["views_count"])

/-- Applying a `save(update_fields=...)` to the stored row: only the named
columns of the stored row are overwritten from the in-memory object. -/
def applyUpdateFields (stored updated : Article) (fields : List String) : Article :=
  { pk := stored.pk
    title := if "title" ∈ fields then updated.title else stored.title
    body := if "body" ∈ fields then updated.body else stored.body
    author := if "author" ∈ fields then updated.author else stored.author
    is_published := if "is_published" ∈ fields then updated.is_published else stored.is_published
    meta_description :=
      if "meta_description" ∈ fields then updated.meta_description else stored.meta_description
    views_count := if "views_count" ∈ fields then updated.views_count else stored.views_count }

/-- `ArticleDetailView.get_object` (views.py): increment the view counter
unless the requesting user is the article's author.  `viewer = none` is an
anonymous visitor (never equal to the author).  Returns the stored row
after the request. -/
def viewArticle (a : Article) (viewer : Option Nat) : Article :=
  if viewer = some a.author then a
  else
    let (mem, fields) := increment_views a
    applyUpdateFields a mem fields

/-- The `Comment` row (models.Comment).  `pk = none` is an unsaved
in-memory instance.  `author` is an `Option` because views.py's
`delete_comment` assigns `None` to it; the *schema* declares the column
NOT NULL (the `author` ForeignKey in models.py has no `null=True`, unlike
`parent`), which `dbInsertComment`/`dbUpdateComment` enforce below. -/
structure Comment where
  pk : Option Nat
  article : Nat
  author : Option Nat
  parent : Option Nat
  content : String
  is_edited : Bool
deriving DecidableEq, Repr

/-- Fetch a comment row by primary key. -/
def findComment (store : List Comment) (cid : Nat) : Option Comment :=
  store.find? (fun c => c.pk == some cid)

/-- `get_object_or_404(Comment, pk=comment_pk, article=article)`. -/
def findCommentInArticle (store : List Comment) (cid aid : Nat) : Option Comment :=
  store.find? (fun c => c.pk == some cid && c.article == aid)

/-- `get_object_or_404(Article, pk=article_pk, is_published=True)`. -/
def findPublishedArticle (articles : List Article) (aid : Nat) : Option Article :=
  articles.find? (fun a => a.pk == aid && a.is_published)

/-- The loop of `Comment.get_reply_depth` (models.py): `while current and
depth < 3: depth += 1; current = current.parent`.  `cur` is the current
ancestor object, fetched through the store; `fuel` stands for
`3 - depth`, so the loop's `depth < 3` test is `fuel > 0`. -/
def get_reply_depth_go (store : List Comment) (cur : Option Comment) (depth fuel : Nat) : Nat :=
  match cur, fuel with
  | none, _ => depth
  | some _, 0 => depth
  | some c, fuel + 1 =>
    get_reply_depth_go store (c.parent.bind (findComment store)) (depth + 1) fuel

/-- `Comment.get_reply_depth` (models.py): walk the parent chain, capped
at 3 levels (`depth` starts at 0, so the remaining fuel is 3). -/
def get_reply_depth (store : List Comment) (c : Comment) : Nat :=
  get_reply_depth_go store (c.parent.bind (findComment store)) 0 3

/-- The in-memory effect of `Comment.save` (models.py): pop
`skip_edited_flag`; if the instance already has a primary key and the flag
was not passed, set `is_edited = True`. -/
def commentSave (c : Comment) (skip_edited_flag : Bool) : Comment :=
  if c.pk.isSome && !skip_edited_flag then { c with is_edited := true } else c

/-- `Comment.can_edit` (models.py). -/
def Comment.can_edit (c : Comment) (u : User) : Bool :=
  u.is_authenticated && (c.author == some u.id || u.is_staff)

/-- `Comment.can_delete` (models.py): same rule as `can_edit`. -/
def Comment.can_delete (c : Comment) (u : User) : Bool :=
  u.is_authenticated && (c.author == some u.id || u.is_staff)

/-- `comment.replies.exists()`: some row has this comment as parent. -/
def has_replies (store : List Comment) (c : Comment) : Bool :=
  store.any (fun r => r.parent == c.pk)

/-- The spam heuristic of `CommentForm.clean_content` (forms.py): among
the words longer than 2 characters, the highest occurrence count
(`max(word_count.values())`, 0 when there are none). -/
def mostCommonLongWordCount (words : List String) : Nat :=
  let long := words.filter (fun w => w.length > 2)
  (long.map (fun w => (long.filter (fun v => v == w)).length)).foldl max 0

/-- Python's `str.strip()`: drop whitespace from both ends. -/
def pyStrip (s : String) : String :=
  String.mk (((s.data.dropWhile Char.isWhitespace).reverse.dropWhile Char.isWhitespace).reverse)

/-- Python's `str.lower()` on the characters the app handles. -/
def pyLower (s : String) : String :=
  String.mk (s.data.map Char.toLower)

/-- `CommentForm.clean_content` (forms.py), composed with the form
field's own stripping: strip, reject length < 5 or > 1000, reject when
more than 5 words and one word (longer than 2 chars, lowercased) makes up
more than half of them (`most_common_count > len(words) * 0.5`).
Returns `some cleaned` on success, `none` on a ValidationError. -/
def clean_content (content : String) : Option String :=
  let c := pyStrip content
  if c.length < 5 then none
  else if c.length > 1000 then none
  else
    let words := pySplit (pyLower c)
    if words.length > 5 && 2 * mostCommonLongWordCount words > words.length then
      none
    else some c

/-- Database write errors: the store rejects a comment row whose
non-nullable `author` column would be NULL. -/
inductive DbError where
  | notNullViolation
deriving DecidableEq, Repr

/-- INSERT of a new comment row: enforces the NOT NULL constraint on
`author` and assigns the fresh primary key. -/
def dbInsertComment (store : List Comment) (c : Comment) (fresh : Nat) :
    Except DbError (List Comment) :=
  if c.author.isNone then .error .notNullViolation
  else .ok (store ++ [{ c with pk := some fresh }])

/-- UPDATE of an existing comment row: enforces the NOT NULL constraint
on `author`; on success replaces the row with the same primary key. -/
def dbUpdateComment (store : List Comment) (c : Comment) :
    Except DbError (List Comment) :=
  if c.author.isNone then .error .notNullViolation
  else .ok (store.map (fun r => if r.pk == c.pk then c else r))

/-- Request outcomes of the comment views (views.py): success redirect,
404, permission-denied message, depth-limit message, form validation
message, or an uncaught database integrity error. -/
inductive Outcome where
  | ok
  | notFound
  | permissionDenied
  | depthExceeded
  | invalidContent
  | integrityError
deriving DecidableEq, Repr

/-- `add_comment` (views.py): requires a published article; validates the
form; creates a root comment saved with `skip_edited_flag=True`.
Returns the comment store after the request and the outcome. -/
def add_comment (articles : List Article) (store : List Comment)
    (article_pk : Nat) (user : User) (content : String) (fresh : Nat) :
    List Comment × Outcome :=
  match findPublishedArticle articles article_pk with
  | none => (store, .notFound)
  | some article =>
    match clean_content content with
    | none => (store, .invalidContent)
    | some cleaned =>
      let comment : Comment :=
        { pk := none, article := article.pk, author := some user.id,
          parent := none, content := cleaned, is_edited := false }
      match dbInsertComment store (commentSave comment true) fresh with
      | .error _ => (store, .integrityError)
      | .ok store2 => (store2, .ok)

/-- `add_reply` (views.py): requires a published article and a parent
comment in it; rejects the reply when `get_reply_depth(parent) >= 2`;
validates the form; creates the reply saved with
`skip_edited_flag=True`. -/
def add_reply (articles : List Article) (store : List Comment)
    (article_pk comment_pk : Nat) (user : User) (content : String) (fresh : Nat) :
    List Comment × Outcome :=
  match findPublishedArticle articles article_pk with
  | none => (store, .notFound)
  | some article =>
    match findCommentInArticle store comment_pk article.pk with
    | none => (store, .notFound)
    | some parent =>
      if get_reply_depth store parent ≥ 2 then (store, .depthExceeded)
      else
        match clean_content content with
        | none => (store, .invalidContent)
        | some cleaned =>
          let reply : Comment :=
            { pk := none, article := article.pk, author := some user.id,
              parent := parent.pk, content := cleaned, is_edited := false }
          match dbInsertComment store (commentSave reply true) fresh with
          | .error _ => (store, .integrityError)
          | .ok store2 => (store2, .ok)

/-- The POST branch of `edit_comment` (views.py): requires a published
article and the comment in it; requires `can_edit`; validates the new
content with the same rules; saves without `skip_edited_flag`. -/
def edit_comment (articles : List Article) (store : List Comment)
    (article_pk comment_pk : Nat) (user : User) (new_content : String) :
    List Comment × Outcome :=
  match findPublishedArticle articles article_pk with
  | none => (store, .notFound)
  | some article =>
    match findCommentInArticle store comment_pk article.pk with
    | none => (store, .notFound)
    | some comment =>
      if !comment.can_edit user then (store, .permissionDenied)
      else
        match clean_content new_content with
        | none => (store, .invalidContent)
        | some cleaned =>
          match dbUpdateComment store (commentSave { comment with content := cleaned } false) with
          | .error _ => (store, .integrityError)
          | .ok store2 => (store2, .ok)

/-- The in-memory update the soft-delete branch of `delete_comment`
(views.py) performs: sentinel content, author cleared, saved with
`skip_edited_flag=True`. -/
def softDeleteUpdate (c : Comment) : Comment :=
  commentSave
    { c with content := "[Comentario eliminado por el usuario]", author := none }
    true

/-- `delete_comment` (views.py): requires a published article and the
comment in it; requires `can_delete`; with replies, writes the sentinel
soft-delete; without replies, deletes the row. -/
def delete_comment (articles : List Article) (store : List Comment)
    (article_pk comment_pk : Nat) (user : User) :
    List Comment × Outcome :=
  match findPublishedArticle articles article_pk with
  | none => (store, .notFound)
  | some article =>
    match findCommentInArticle store comment_pk article.pk with
    | none => (store, .notFound)
    | some comment =>
      if !comment.can_delete user then (store, .permissionDenied)
      else if has_replies store comment then
        match dbUpdateComment store (softDeleteUpdate comment) with
        | .error _ => (store, .integrityError)
        | .ok store2 => (store2, .ok)
      else
        (store.filter (fun r => r.pk != comment.pk), .ok)

/-! Concrete fixtures: one published article (author user 1), one
unpublished article, and a three-level comment chain c1 ← c2 ← c3. -/

def demoUser1 : User := { id := 1, is_staff := false, is_authenticated := true }

def demoUser2 : User := { id := 2, is_staff := false, is_authenticated := true }

def demoArticle : Article :=
  { pk := 1, title := "Tecnicas de drift", body := "cuerpo del articulo",
    author := 1, is_published := true, meta_description := "", views_count := 0 }

def demoUnpublished : Article :=
  { demoArticle with pk := 2, is_published := false }

def demoArticleMeta : Article :=
  { demoArticle with pk := 3, meta_description := "Resumen del articulo" }

def demoBody400 : String := String.intercalate " " (List.replicate 400 "a")

def demoArticle400 : Article := { demoArticle with pk := 4, body := demoBody400 }

def demoC1 : Comment :=
  { pk := some 1, article := 1, author := some 1, parent := none,
    content := "hola a todos", is_edited := false }

def demoC2 : Comment :=
  { pk := some 2, article := 1, author := some 2, parent := some 1,
    content := "respuesta uno", is_edited := false }

def demoC3 : Comment :=
  { pk := some 3, article := 1, author := some 1, parent := some 2,
    content := "respuesta dos", is_edited := false }

def demoStore : List Comment := [demoC1, demoC2, demoC3]

/-! ## Theorems -/

/-- The depth loop never exceeds its starting depth plus its remaining
fuel. -/
theorem get_reply_depth_go_le (store : List Comment) (cur : Option Comment) (depth fuel : Nat) :
    get_reply_depth_go store cur depth fuel ≤ depth + fuel := by
  induction fuel generalizing cur depth with
  | zero => cases cur <;> simp [get_reply_depth_go]
  | succ n ih =>
    cases cur with
    | none => simp [get_reply_depth_go]
    | some c =>
      have h := ih (c.parent.bind (findComment store)) (depth + 1)
      simp only [get_reply_depth_go]
      omega

/-- Claim C3: for every comment, over any comment store, whatever the
length or shape of its parent chain, `get_reply_depth` returns at most
3. -/
theorem get_reply_depth_le_three (store : List Comment) (c : Comment) :
    get_reply_depth store c ≤ 3 := by
  simpa [get_reply_depth] using
    get_reply_depth_go_le store (c.parent.bind (findComment store)) 0 3

/-- Claim C10: the sentinel soft-delete update that `delete_comment`
builds for a comment with replies (sentinel content, cleared author,
saved with `skip_edited_flag=True`) leaves `is_edited` exactly as it
was. -/
theorem soft_delete_preserves_is_edited (c : Comment) :
    (softDeleteUpdate c).is_edited = c.is_edited := by
  simp [softDeleteUpdate, commentSave]

/-- Claim C4: `Comment.save` sets `is_edited` on every save of an
already-persisted comment (one with a primary key) unless
`skip_edited_flag` is passed, in which case — and on the first save,
which has no primary key yet — `is_edited` is left unchanged. -/
theorem comment_save_edited_flag (c : Comment) (skip : Bool) :
    (c.pk.isSome = true → skip = false → (commentSave c skip).is_edited = true) ∧
    (skip = true → (commentSave c skip).is_edited = c.is_edited) ∧
    (c.pk = none → (commentSave c skip).is_edited = c.is_edited) := by
  refine ⟨fun hpk hskip => ?_, fun hskip => ?_, fun hpk => ?_⟩
  · simp [commentSave, hpk, hskip]
  · simp [commentSave, hskip]
  · simp [commentSave, hpk]

theorem comment_save_edited_flag_witness :
    (commentSave demoC1 false).is_edited = true ∧
    (commentSave demoC1 true).is_edited = demoC1.is_edited ∧
    (commentSave { demoC1 with pk := none } false).is_edited =
      ({ demoC1 with pk := none } : Comment).is_edited :=
  ⟨(comment_save_edited_flag demoC1 false).1 (by decide) rfl,
   (comment_save_edited_flag demoC1 true).2.1 rfl,
   (comment_save_edited_flag { demoC1 with pk := none } false).2.2 rfl⟩

/-- Claim C5: a view by the article's author leaves the stored row
untouched; a view by anyone else increments `views_count` by exactly 1
and changes no other column (restoring `views_count` recovers the
original row); hence the counter never decreases. -/
theorem view_article_spec (a : Article) (viewer : Option Nat) :
    (viewer = some a.author → viewArticle a viewer = a) ∧
    (viewer ≠ some a.author →
      (viewArticle a viewer).views_count = a.views_count + 1 ∧
      { viewArticle a viewer with views_count := a.views_count } = a) ∧
    a.views_count ≤ (viewArticle a viewer).views_count := by
  by_cases h : viewer = some a.author
  · exact ⟨fun _ => by simp [viewArticle, h], fun hne => absurd h hne, by simp [viewArticle, h]⟩
  · refine ⟨fun he => absurd he h, fun _ => ⟨?_, ?_⟩, ?_⟩
    · simp [viewArticle, h, increment_views, applyUpdateFields]
    · simp [viewArticle, h, increment_views, applyUpdateFields]
    · simp [viewArticle, h, increment_views, applyUpdateFields]

theorem view_article_spec_witness :
    viewArticle demoArticle (some 1) = demoArticle ∧
    (viewArticle demoArticle (some 2)).views_count = demoArticle.views_count + 1 :=
  ⟨(view_article_spec demoArticle (some 1)).1 rfl,
   ((view_article_spec demoArticle (some 2)).2.1 (by decide)).1⟩

/-- Claim C8: `reading_time` renders `max 1 (round(wordCount / 200))`
as "<n> min de lectura"; the rounding really is to the nearest integer
(`|200·n − wordCount| ≤ 100`), and a body of exactly 400 words renders
as "2 min de lectura". -/
theorem reading_time_spec (a : Article) :
    reading_time a
      = toString (max 1 (pyRoundDiv200 (wordCount a.body))) ++ " min de lectura" ∧
    200 * pyRoundDiv200 (wordCount a.body) ≤ wordCount a.body + 100 ∧
    wordCount a.body ≤ 200 * pyRoundDiv200 (wordCount a.body) + 100 ∧
    (wordCount a.body = 400 → reading_time a = "2 min de lectura") := by
  have hdm := Nat.div_add_mod (wordCount a.body) 200
  have hlt : wordCount a.body % 200 < 200 := Nat.mod_lt _ (by norm_num)
  refine ⟨rfl, ?_, ?_, fun h => ?_⟩
  · simp only [pyRoundDiv200]
    split_ifs <;> omega
  · simp only [pyRoundDiv200]
    split_ifs <;> omega
  · simp only [reading_time, h]
    rfl

set_option maxRecDepth 40000 in
theorem reading_time_spec_witness :
    reading_time demoArticle400 = "2 min de lectura" :=
  (reading_time_spec demoArticle400).2.2.2 (by decide)

/-- Claim C9: `excerpt` returns the meta description whenever it is
non-empty; otherwise it returns the first 30 words of the body, with
"..." appended exactly when the body has more than 30 words — a body of
at most 30 words comes back as its words joined, with nothing
appended. -/
theorem excerpt_spec (a : Article) :
    (a.meta_description ≠ "" → excerpt a = a.meta_description) ∧
    (a.meta_description = "" →
      excerpt a = String.intercalate " " ((pySplit a.body).take 30) ++
        (if 30 < wordCount a.body then "..." else "") ∧
      (wordCount a.body ≤ 30 →
        excerpt a = String.intercalate " " (pySplit a.body))) := by
  refine ⟨fun h => ?_, fun h => ⟨?_, fun h30 => ?_⟩⟩
  · simp [excerpt, h]
  · simp [excerpt, h]
  · have hlen : (pySplit a.body).length ≤ 30 := by simpa [wordCount] using h30
    simp [excerpt, h, wordCount, List.take_of_length_le hlen, Nat.not_lt.mpr hlen,
      String.append_empty]

theorem excerpt_spec_witness :
    excerpt demoArticleMeta = "Resumen del articulo" ∧
    excerpt demoArticle = String.intercalate " " (pySplit demoArticle.body) :=
  ⟨(excerpt_spec demoArticleMeta).1 (by decide),
   ((excerpt_spec demoArticle).2 rfl).2 (by decide)⟩

/-- Content whose stripped length is below 5 or above 1000 never passes
`clean_content`. -/
theorem clean_content_none_of_bad_length (content : String)
    (h : (pyStrip content).length < 5 ∨ 1000 < (pyStrip content).length) :
    clean_content content = none := by
  simp only [clean_content]
  split_ifs <;> first | rfl | omega

/-- Content that passes `clean_content` has stripped length between 5
and 1000. -/
theorem clean_content_length_bounds (content cleaned : String)
    (h : clean_content content = some cleaned) :
    5 ≤ cleaned.length ∧ cleaned.length ≤ 1000 := by
  simp only [clean_content] at h
  split_ifs at h with h1 h2 h3
  simp only [Option.some.injEq] at h
  subst h
  omega

/-- A comment found by `pk=cid, article=aid` carries that primary
key. -/
theorem findCommentInArticle_pk (store : List Comment) (cid aid : Nat) (c : Comment)
    (h : findCommentInArticle store cid aid = some c) : c.pk = some cid := by
  have hp := List.find?_some h
  simp only [Bool.and_eq_true, beq_iff_eq] at hp
  exact hp.1

/-- Claim C2: when the parent's computed depth is at least 2, `add_reply`
answers the depth-exceeded error and leaves the store unchanged; a reply
is only ever created (outcome ok) when the parent's depth is 0 or 1. -/
theorem add_reply_depth_guard (articles : List Article) (store : List Comment)
    (article_pk comment_pk : Nat) (user : User) (content : String) (fresh : Nat)
    (article : Article) (parent : Comment)
    (hart : findPublishedArticle articles article_pk = some article)
    (hpar : findCommentInArticle store comment_pk article.pk = some parent) :
    (2 ≤ get_reply_depth store parent →
      add_reply articles store article_pk comment_pk user content fresh
        = (store, Outcome.depthExceeded)) ∧
    (∀ store2, add_reply articles store article_pk comment_pk user content fresh
        = (store2, Outcome.ok) →
      get_reply_depth store parent ≤ 1) := by
  constructor
  · intro h
    simp [add_reply, hart, hpar, h]
  · intro store2 hok
    by_contra hgt
    have h2 : 2 ≤ get_reply_depth store parent := by omega
    simp [add_reply, hart, hpar, h2] at hok

theorem add_reply_depth_guard_witness :
    add_reply [demoArticle] demoStore 1 3 demoUser2 "buen comentario" 4
      = (demoStore, Outcome.depthExceeded) :=
  (add_reply_depth_guard [demoArticle] demoStore 1 3 demoUser2 "buen comentario" 4
      demoArticle demoC3 (by decide) (by decide)).1 (by decide)

/-- Claim C6: creating a root comment fails with not-found when the
target article is missing or unpublished; fails with the validation
error when the stripped content is shorter than 5 or longer than 1000
characters; and every non-ok outcome leaves the comment store
unchanged. -/
theorem add_comment_validation (articles : List Article) (store : List Comment)
    (article_pk : Nat) (user : User) (content : String) (fresh : Nat) :
    (findPublishedArticle articles article_pk = none →
      add_comment articles store article_pk user content fresh
        = (store, Outcome.notFound)) ∧
    (∀ article, findPublishedArticle articles article_pk = some article →
      ((pyStrip content).length < 5 ∨ 1000 < (pyStrip content).length) →
      add_comment articles store article_pk user content fresh
        = (store, Outcome.invalidContent)) ∧
    (∀ store2 out, add_comment articles store article_pk user content fresh = (store2, out) →
      out ≠ Outcome.ok → store2 = store) := by
  refine ⟨fun h => ?_, fun article hart h => ?_, fun store2 out heq hne => ?_⟩
  · simp [add_comment, h]
  · simp [add_comment, hart, clean_content_none_of_bad_length content h]
  · unfold add_comment at heq
    cases hart : findPublishedArticle articles article_pk with
    | none => rw [hart] at heq; cases heq; rfl
    | some article =>
      rw [hart] at heq
      cases hcc : clean_content content with
      | none => rw [hcc] at heq; cases heq; rfl
      | some cleaned =>
        rw [hcc] at heq
        simp [commentSave, dbInsertComment] at heq
        exact absurd heq.2.symm hne

theorem add_comment_validation_witness :
    add_comment [demoArticle] demoStore 1 demoUser2 "abc" 4
      = (demoStore, Outcome.invalidContent) ∧
    add_comment [demoUnpublished] demoStore 2 demoUser2 "comentario valido" 4
      = (demoStore, Outcome.notFound) :=
  ⟨(add_comment_validation [demoArticle] demoStore 1 demoUser2 "abc" 4).2.1
      demoArticle (by decide) (by decide),
   (add_comment_validation [demoUnpublished] demoStore 2 demoUser2 "comentario valido" 4).1
      (by decide)⟩

/-- Claim C7: an edit request by a user who is neither the comment's
author nor staff is refused with permission-denied and the store is
unchanged; a successful edit stores the comment with `is_edited = true`
and content that passed re-validation (stripped length between 5 and
1000), all other rows untouched. -/
theorem edit_comment_permissions (articles : List Article) (store : List Comment)
    (article_pk comment_pk : Nat) (user : User) (new_content : String)
    (article : Article) (comment : Comment)
    (hart : findPublishedArticle articles article_pk = some article)
    (hcom : findCommentInArticle store comment_pk article.pk = some comment) :
    (comment.author ≠ some user.id → user.is_staff = false →
      edit_comment articles store article_pk comment_pk user new_content
        = (store, Outcome.permissionDenied)) ∧
    (∀ store2, edit_comment articles store article_pk comment_pk user new_content
        = (store2, Outcome.ok) →
      ∃ cleaned, clean_content new_content = some cleaned ∧
        5 ≤ cleaned.length ∧ cleaned.length ≤ 1000 ∧
        store2 = store.map (fun r =>
          if r.pk == comment.pk then
            { comment with content := cleaned, is_edited := true }
          else r)) := by
  constructor
  · intro hna hns
    have hbe : (comment.author == some user.id) = false := by
      simpa using hna
    simp [edit_comment, hart, hcom, Comment.can_edit, hbe, hns]
  · intro store2 hok
    cases hce : comment.can_edit user with
    | false => simp [edit_comment, hart, hcom, hce] at hok
    | true =>
      cases hcc : clean_content new_content with
      | none => simp [edit_comment, hart, hcom, hce, hcc] at hok
      | some cleaned =>
        have hpk : comment.pk = some comment_pk := findCommentInArticle_pk _ _ _ _ hcom
        cases hau : comment.author with
        | none =>
          simp [edit_comment, hart, hcom, hce, hcc, commentSave, hpk,
            dbUpdateComment, hau] at hok
        | some aid =>
          refine ⟨cleaned, rfl, (clean_content_length_bounds _ _ hcc).1,
            (clean_content_length_bounds _ _ hcc).2, ?_⟩
          simp [edit_comment, hart, hcom, hce, hcc, commentSave, hpk,
            dbUpdateComment, hau] at hok
          simp [hpk, hau]
          exact hok.symm

theorem edit_comment_permissions_witness :
    edit_comment [demoArticle] demoStore 1 1 demoUser2 "texto nuevo bueno"
      = (demoStore, Outcome.permissionDenied) :=
  (edit_comment_permissions [demoArticle] demoStore 1 1 demoUser2 "texto nuevo bueno"
      demoArticle demoC1 (by decide) (by decide)).1 (by decide) rfl

/-- Claim C1 (code bug, concrete run): deleting `demoC1` — which has a
reply — by its own author does not keep the row with sentinel content
and a cleared author as the spec describes: views.py assigns
`comment.author = None` and saves, but models.py declares the
`Comment.author` ForeignKey without `null=True`, so the write violates
the NOT NULL constraint; the request aborts with an integrity error and
the store is unchanged. -/
theorem delete_comment_soft_delete_integrity_error :
    has_replies demoStore demoC1 = true ∧
    demoC1.can_delete demoUser1 = true ∧
    delete_comment [demoArticle] demoStore 1 1 demoUser1
      = (demoStore, Outcome.integrityError) := by
  decide

end Newspaper
